import Mathlib

/-!
Shallow embedding of `atomate/lammps/workflows/core.py` (workflow assembly for
LAMMPS molecular-dynamics runs), together with proofs about the three factory
functions it defines: `get_wf_from_input_template`, `get_packmol_wf` and `get_wf`.

Python values that flow through the assembler opaquely are modelled by the
inductive `PyVal`; configuration mappings (`dict`) are modelled as insertion
ordered association lists (`Dict`); the external collaborators
(`LammpsInputSet.from_file`, `LammpsFW`, `PackmolFW`, `LammpsForceFieldFW`,
`Workflow`) are opaque constructors, modelled as structures and inductive
constructors that record exactly the arguments the source passes to them.
Runtime errors (`NameError`, `KeyError`) are modelled with `Except`.
-/

set_option autoImplicit false
set_option linter.unusedVariables false

namespace AtomateLammps

/-- An opaque Python value as it flows through the assembler. -/
inductive PyVal where
  | none : PyVal
  | str : String → PyVal
  | int : Int → PyVal
  deriving DecidableEq, Repr

/-- A Python `dict` with string keys, modelled as an insertion-ordered
association list (first binding of a key is the visible one). -/
abbrev Dict := List (String × PyVal)

namespace Dict

/-- `d.get(k)` returning `None`-as-`Option`: the first binding of `k`. -/
def get? : Dict → String → Option PyVal
  | [], _ => Option.none
  | p :: t, k => if p.1 = k then some p.2 else get? t k

/-- `k in d`. -/
def contains (d : Dict) (k : String) : Bool :=
  (d.get? k).isSome

/-- `d[k] = v`: replace the value of an existing key in place, otherwise
append the new binding at the end (Python dicts preserve insertion order). -/
def set : Dict → String → PyVal → Dict
  | [], k, v => [(k, v)]
  | p :: t, k, v => if p.1 = k then (k, v) :: t else p :: set t k v

end Dict

/-- The `user_settings` argument of `get_wf_from_input_template`: the source
accepts a single settings `dict`, a list of them, or `None` (its docstring says
`[dict] or dict`, and the body guards with `user_settings or {}`). -/
inductive UserSettings where
  | none : UserSettings
  | dict : Dict → UserSettings
  | list : List Dict → UserSettings
  deriving DecidableEq, Repr

/-- Python truthiness of a `user_settings` value: `None` is falsy, a dict or
list is truthy iff non-empty. -/
def usTruthy : UserSettings → Bool
  | .none => false
  | .dict d => !d.isEmpty
  | .list l => !l.isEmpty

/-- Lines 43-44 of the source:
`user_settings = user_settings or {}` followed by
`user_settings = user_settings if isinstance(user_settings, list) else [user_settings]`. -/
def normalizeUserSettings (us : UserSettings) : List Dict :=
  match (if usTruthy us then us else UserSettings.dict []) with
  | .none => []        -- unreachable: None is falsy, so it was replaced by the empty dict
  | .dict d => [d]
  | .list l => l

/-- The value returned by `LammpsInputSet.from_file` (an external collaborator,
`pymatgen.io.lammps.sets`): opaque, so modelled as a record of the arguments the
assembler passes to it at source lines 54-57. -/
structure LammpsInputSet where
  name : String
  template_file : String
  user_settings : Dict
  lammps_data : Option PyVal
  data_filename : PyVal
  is_forcefield : Bool
  deriving DecidableEq, Repr

/-- A task node. The three constructors are the three opaque node factories of
`atomate.lammps.fireworks.core`; each records exactly the arguments the
assembler passes. Only `LammpsForceFieldFW` receives a `parents` argument in
this source, so only that constructor carries one; the other two factories are
called without parents (their parent list is empty). -/
inductive Firework where
  | lammps (lammps_input_set : LammpsInputSet) (input_filename : String)
      (data_filename : PyVal) (lammps_cmd : String) (db_file : Option String)
      (log_filename : PyVal) (dump_filename : Option (List String))
  | packmol (molecules : List PyVal) (packing_config : List Dict)
      (tolerance : PyVal) (filetype : String) (control_params : Option PyVal)
      (copy_to_current_on_exit : Bool) (output_file : String)
      (site_property : Option PyVal)
  | lammpsFF (input_file : String) (final_molecule : String)
      (molecules : List PyVal) (mols_number : List PyVal) (forcefield : PyVal)
      (user_settings : Dict) (site_property : Option PyVal)
      (input_filename : String) (lammps_cmd : String) (db_file : Option String)
      (parents : List Firework) (log_filename : String)
      (dump_filename : Option (List String))

/-- Dependency edges of a node: the parent references it was constructed with.
Nodes built by factories called without a `parents` argument have none. -/
def Firework.parentRefs : Firework → List Firework
  | .lammpsFF _ _ _ _ _ _ _ _ _ _ ps _ _ => ps
  | _ => []

/-- The data filename a node was constructed with, when its factory takes one. -/
def Firework.dataFilename? : Firework → Option PyVal
  | .lammps _ _ df _ _ _ _ => some df
  | _ => Option.none

/-- The log filename a node was constructed with, when its factory takes one. -/
def Firework.logFilename? : Firework → Option PyVal
  | .lammps _ _ _ _ _ lf _ => some lf
  | .lammpsFF _ _ _ _ _ _ _ _ _ _ _ lf _ => some (.str lf)
  | .packmol _ _ _ _ _ _ _ _ => Option.none

/-- The input set a node was constructed with, when its factory takes one. -/
def Firework.inputSet? : Firework → Option LammpsInputSet
  | .lammps s _ _ _ _ _ _ => some s
  | _ => Option.none

/-- The `fireworks.Workflow` container (external collaborator): a list of task
nodes plus an optional name. -/
structure Workflow where
  fws : List Firework
  name : Option String

/-- Source lines 51-52: `if "log_file" not in settings: settings["log_file"] = "log.lammps"`.
This mutates the caller-supplied mapping in place; the function returns the
post-mutation state of the mapping. -/
def defaultLogFile (settings : Dict) : Dict :=
  if settings.contains "log_file" then settings
  else settings.set "log_file" (.str "log.lammps")

/-- One iteration of the loop at source lines 47-63 of
`get_wf_from_input_template`: resolve the data filename, default the log file
name in place, build the input set and construct one `LammpsFW` node. Returns
the node together with the post-mutation state of the settings mapping. -/
def templateLoopBody (wf_name input_template_file : String)
    (lammps_data : Option PyVal) (input_filename : String) (is_forcefield : Bool)
    (lammps_cmd : String) (dump_filenames : Option (List String))
    (db_file : Option String) (settings : Dict) : Firework × Dict :=
  let data_filename := (settings.get? "data_file").getD (.str "lammps.data")
  let settings := defaultLogFile settings
  let lammps_input_set : LammpsInputSet :=
    { name := wf_name
      template_file := input_template_file
      user_settings := settings
      lammps_data := lammps_data
      data_filename := data_filename
      is_forcefield := is_forcefield }
  (Firework.lammps lammps_input_set input_filename data_filename lammps_cmd
      db_file ((settings.get? "log_file").getD .none) dump_filenames,
   settings)

/-- Source lines 19-65, `get_wf_from_input_template`: normalize `user_settings`
into a list of mappings, build one `LammpsFW` node per mapping, return the
`Workflow` of those nodes with the given name. The second component of the
result is the post-call state of the (caller-aliased) settings mappings, making
the function's only side effect explicit. -/
def get_wf_from_input_template (input_template_file : String)
    (user_settings : UserSettings) (lammps_data : Option PyVal)
    (input_filename : String) (is_forcefield : Bool) (lammps_cmd : String)
    (dump_filenames : Option (List String)) (db_file : Option String)
    (name : String) : Workflow × List Dict :=
  let wf_name := name
  let settingsList := normalizeUserSettings user_settings
  let results := settingsList.map
    (templateLoopBody wf_name input_template_file lammps_data input_filename
      is_forcefield lammps_cmd dump_filenames db_file)
  ({ fws := results.map Prod.fst, name := some name }, results.map Prod.snd)

/-- A Python runtime error raised during assembly. -/
inductive PyError where
  | nameError (n : String)
  | keyError (k : String)
  deriving DecidableEq, Repr

/-- Source line 74: `mols_number = [mol_config["number"] for mol_config in packing_config]`.
The comprehension evaluates its entries left to right, collecting the values of
the `"number"` key; the subscript raises `KeyError` on the first entry lacking
that key. -/
def molsNumber : List Dict → Except PyError (List PyVal)
  | [] => .ok []
  | mol_config :: rest =>
    match mol_config.get? "number" with
    | some v =>
      match molsNumber rest with
      | .ok ns => .ok (v :: ns)
      | .error e => .error e
    | Option.none => .error (.keyError "number")

/-- Source lines 68-88, `get_packmol_wf`: derive the packed-output filename and
the per-molecule counts, construct the packing node, then attempt to construct
the force-field simulation node. Line 81 reads the identifier `forcefield`,
which is bound nowhere (the declared parameter is `force_field` and no global
of that name exists in the module), so evaluating the arguments of the
`LammpsForceFieldFW` call raises `NameError` and the function never returns a
workflow. The `box_size` and `name` parameters are accepted but never used, as
in the source. -/
def get_packmol_wf (input_file : String) (user_settings : Dict)
    (molecules : List PyVal) (packing_config : List Dict) (force_field : PyVal)
    (box_size : PyVal) (site_property : Option PyVal) (tolerance : PyVal)
    (filetype : String) (control_params : Option PyVal) (lammps_cmd : String)
    (dump_filenames : Option (List String)) (db_file : Option String)
    (name : String) : Except PyError Workflow :=
  let packmol_output_file := "packed." ++ filetype
  match molsNumber packing_config with
  | .error e => .error e
  | .ok _mols_number =>
    let _fw_packmol := Firework.packmol molecules packing_config tolerance
      filetype control_params true packmol_output_file site_property
    -- line 81 evaluates the unbound identifier `forcefield`: NameError, so the
    -- `LammpsForceFieldFW` call and the `Workflow` construction are never reached
    .error (.nameError "forcefield")

/-- The `LammpsForceFieldFW` node described by the call expression at source
lines 80-84 of `get_packmol_wf`, with the value of the unbound identifier
`forcefield` abstracted as `ff` and the parent node supplied explicitly. At run
time this node is never constructed: evaluating `forcefield` raises `NameError`
first. The literal keyword arguments of the call site — `input_filename="lammps.in"`
and `log_filename="lammps.log"` — appear verbatim. -/
def get_packmol_wf_fw_lammps (input_file : String) (packmol_output_file : String)
    (molecules : List PyVal) (mols_number : List PyVal) (ff : PyVal)
    (user_settings : Dict) (site_property : Option PyVal) (lammps_cmd : String)
    (db_file : Option String) (fw_packmol : Firework)
    (dump_filenames : Option (List String)) : Firework :=
  Firework.lammpsFF input_file packmol_output_file molecules mols_number ff
    user_settings site_property "lammps.in" lammps_cmd db_file [fw_packmol]
    "lammps.log" dump_filenames

/-- Source lines 92-117, `get_wf`: construct exactly one `LammpsFW` node
carrying all the inputs verbatim and return a one-node workflow. -/
def get_wf (name : String) (lammps_input_set : LammpsInputSet)
    (input_filename : String) (data_filename : PyVal) (lammps_cmd : String)
    (db_file : Option String) (log_filename : PyVal)
    (dump_filenames : Option (List String)) : Workflow :=
  let fws := [Firework.lammps lammps_input_set input_filename data_filename
    lammps_cmd db_file log_filename dump_filenames]
  { fws := fws, name := some name }

/-! ### Helper lemmas about the dict model and normalization -/

theorem Dict.get?_eq_none_of_contains_eq_false (d : Dict) (k : String)
    (h : d.contains k = false) : d.get? k = Option.none := by
  unfold Dict.contains at h
  cases hg : d.get? k with
  | none => rfl
  | some v => rw [hg] at h; simp at h

theorem Dict.get?_set_self (d : Dict) (k : String) (v : PyVal) :
    (d.set k v).get? k = some v := by
  induction d with
  | nil => simp [Dict.set, Dict.get?]
  | cons p t ih =>
    by_cases hp : p.1 = k
    · simp [Dict.set, hp, Dict.get?]
    · simp [Dict.set, hp, Dict.get?, ih]

theorem Dict.get?_set_ne (d : Dict) (k k' : String) (v : PyVal) (h : k' ≠ k) :
    (d.set k v).get? k' = d.get? k' := by
  induction d with
  | nil => simp [Dict.set, Dict.get?, Ne.symm h]
  | cons p t ih =>
    by_cases hp : p.1 = k
    · simp [Dict.set, hp, Dict.get?, Ne.symm h]
    · simp [Dict.set, hp, Dict.get?, ih]

theorem defaultLogFile_of_contains (s : Dict) (h : s.contains "log_file" = true) :
    defaultLogFile s = s := by
  simp [defaultLogFile, h]

theorem defaultLogFile_of_not_contains (s : Dict)
    (h : s.contains "log_file" = false) :
    defaultLogFile s = s.set "log_file" (.str "log.lammps") := by
  simp [defaultLogFile, h]

theorem defaultLogFile_get_log (s : Dict) :
    (defaultLogFile s).get? "log_file" =
      some ((s.get? "log_file").getD (.str "log.lammps")) := by
  unfold defaultLogFile
  cases hg : s.get? "log_file" with
  | some v => simp [Dict.contains, hg]
  | none => simp [Dict.contains, hg, Dict.get?_set_self]

theorem normalizeUserSettings_dict (m : Dict) :
    normalizeUserSettings (.dict m) = [m] := by
  cases m <;> rfl

theorem normalizeUserSettings_list_of_ne_nil (l : List Dict) (h : l ≠ []) :
    normalizeUserSettings (.list l) = l := by
  cases l with
  | nil => exact absurd rfl h
  | cons a t => rfl

/-! ### Claim theorems -/

/-- C1: for every non-empty sequence of N run configuration mappings passed as
`user_settings`, `get_wf_from_input_template` returns a graph with exactly N
task nodes, one per configuration in the order of the input sequence (each
built by the loop body from its configuration), and no node carries any parent
reference. -/
theorem c1_template_fanout (tf : String) (l : List Dict) (ld : Option PyVal)
    (ifn : String) (isf : Bool) (cmd : String) (dfn : Option (List String))
    (db : Option String) (nm : String) (hne : l ≠ []) :
    (get_wf_from_input_template tf (.list l) ld ifn isf cmd dfn db nm).1.fws.length
        = l.length ∧
    (get_wf_from_input_template tf (.list l) ld ifn isf cmd dfn db nm).1.fws
        = l.map (fun s => (templateLoopBody nm tf ld ifn isf cmd dfn db s).1) ∧
    ∀ fw ∈ (get_wf_from_input_template tf (.list l) ld ifn isf cmd dfn db nm).1.fws,
      fw.parentRefs = [] := by
  have hn := normalizeUserSettings_list_of_ne_nil l hne
  refine ⟨?_, ?_, ?_⟩
  · simp [get_wf_from_input_template, hn]
  · simp [get_wf_from_input_template, hn, List.map_map, Function.comp]
  · intro fw hfw
    simp [get_wf_from_input_template, hn, List.mem_map] at hfw
    obtain ⟨s, hs, rfl⟩ := hfw
    rfl

/-- C1 witness: a concrete two-configuration input satisfies the hypothesis and
yields a two-node graph. -/
theorem c1_template_fanout_witness :
    (get_wf_from_input_template "in.template"
        (.list [[], [("data_file", PyVal.str "a.data")]]) Option.none "lammps.in"
        false "lammps" Option.none Option.none "wf").1.fws.length = 2 :=
  (c1_template_fanout "in.template" [[], [("data_file", PyVal.str "a.data")]]
    Option.none "lammps.in" false "lammps" Option.none Option.none "wf"
    (List.cons_ne_nil _ _)).1

/-- C4 counterexample: with an empty configuration sequence the returned graph
contains one task node, not zero — `user_settings or {}` replaces the falsy
empty list by an empty mapping, which is then wrapped into a one-element
sequence. -/
theorem c4_empty_list_counterexample :
    (get_wf_from_input_template "in.template" (.list []) Option.none "lammps.in"
        false "lammps" Option.none Option.none
        "LAMMPS template Wflow").1.fws.length ≠ 0 := by
  decide

/-- C4 amended: when an empty configuration sequence is passed as
`user_settings`, no error is raised; the empty list is falsy, so it is replaced
by an empty mapping and wrapped into a one-element sequence, and the returned
graph contains exactly one task node with defaulted data filename
"lammps.data" and log filename "log.lammps". -/
theorem c4_empty_list_one_default_node (tf : String) (ld : Option PyVal)
    (ifn : String) (isf : Bool) (cmd : String) (dfn : Option (List String))
    (db : Option String) (nm : String) :
    (get_wf_from_input_template tf (.list []) ld ifn isf cmd dfn db nm).1.fws.length
        = 1 ∧
    ((get_wf_from_input_template tf (.list []) ld ifn isf cmd dfn db nm).1.fws.head?.bind
        Firework.dataFilename?) = some (.str "lammps.data") ∧
    ((get_wf_from_input_template tf (.list []) ld ifn isf cmd dfn db nm).1.fws.head?.bind
        Firework.logFilename?) = some (.str "log.lammps") :=
  ⟨rfl, rfl, rfl⟩

/-- C5: for every falsy `user_settings` argument — `None`, an empty mapping, or
an empty sequence — `get_wf_from_input_template` replaces it by an empty
mapping, wraps it into a one-element sequence, and returns a graph with exactly
one task node whose data filename is "lammps.data" and whose log filename is
"log.lammps", both defaulted. -/
theorem c5_falsy_settings_default_node (tf : String) (us : UserSettings)
    (ld : Option PyVal) (ifn : String) (isf : Bool) (cmd : String)
    (dfn : Option (List String)) (db : Option String) (nm : String)
    (h : us = .none ∨ us = .dict [] ∨ us = .list []) :
    (get_wf_from_input_template tf us ld ifn isf cmd dfn db nm).1.fws.length = 1 ∧
    ((get_wf_from_input_template tf us ld ifn isf cmd dfn db nm).1.fws.head?.bind
        Firework.dataFilename?) = some (.str "lammps.data") ∧
    ((get_wf_from_input_template tf us ld ifn isf cmd dfn db nm).1.fws.head?.bind
        Firework.logFilename?) = some (.str "log.lammps") := by
  rcases h with rfl | rfl | rfl <;> exact ⟨rfl, rfl, rfl⟩

/-- C5 witness: the `None` argument yields a one-node graph. -/
theorem c5_falsy_settings_default_node_witness :
    (get_wf_from_input_template "in.template" .none Option.none "lammps.in"
        false "lammps" Option.none Option.none "wf").1.fws.length = 1 :=
  (c5_falsy_settings_default_node "in.template" .none Option.none "lammps.in"
    false "lammps" Option.none Option.none "wf" (Or.inl rfl)).1

/-- C6: for every configuration mapping m, calling `get_wf_from_input_template`
with m as the `user_settings` argument returns the same result — the same
one-node workflow and the same post-call settings state — as calling it with
the one-element sequence [m], all other arguments equal. -/
theorem c6_dict_eq_singleton_list (tf : String) (m : Dict) (ld : Option PyVal)
    (ifn : String) (isf : Bool) (cmd : String) (dfn : Option (List String))
    (db : Option String) (nm : String) :
    get_wf_from_input_template tf (.dict m) ld ifn isf cmd dfn db nm =
      get_wf_from_input_template tf (.list [m]) ld ifn isf cmd dfn db nm := by
  cases m <;> rfl

/-- C7: within `get_wf_from_input_template` each configuration is handed to the
loop body (first conjunct ties the loop body to the function); a configuration
lacking "data_file" yields a node with data filename "lammps.data", and one
that carries it uses its own value; a configuration lacking "log_file" is
updated in place with "log_file" ↦ "log.lammps" before being passed to the
input-set factory (the input set holds exactly the post-mutation mapping) and
the node's log filename is "log.lammps", while one that carries "log_file" is
left unchanged and its own value is used. -/
theorem c7_per_config_defaulting (nm tf : String) (ld : Option PyVal)
    (ifn : String) (isf : Bool) (cmd : String) (dfn : Option (List String))
    (db : Option String) (s : Dict) :
    (get_wf_from_input_template tf (.dict s) ld ifn isf cmd dfn db nm).1.fws
        = [(templateLoopBody nm tf ld ifn isf cmd dfn db s).1] ∧
    (s.contains "data_file" = false →
      (templateLoopBody nm tf ld ifn isf cmd dfn db s).1.dataFilename?
        = some (.str "lammps.data")) ∧
    (∀ v, s.get? "data_file" = some v →
      (templateLoopBody nm tf ld ifn isf cmd dfn db s).1.dataFilename? = some v) ∧
    (s.contains "log_file" = false →
      (templateLoopBody nm tf ld ifn isf cmd dfn db s).2
          = s.set "log_file" (.str "log.lammps") ∧
      ((templateLoopBody nm tf ld ifn isf cmd dfn db s).1.inputSet?).map
          LammpsInputSet.user_settings
        = some ((templateLoopBody nm tf ld ifn isf cmd dfn db s).2) ∧
      (templateLoopBody nm tf ld ifn isf cmd dfn db s).1.logFilename?
        = some (.str "log.lammps")) ∧
    (∀ v, s.get? "log_file" = some v →
      (templateLoopBody nm tf ld ifn isf cmd dfn db s).2 = s ∧
      (templateLoopBody nm tf ld ifn isf cmd dfn db s).1.logFilename? = some v) := by
  refine ⟨?_, ?_, ?_, ?_, ?_⟩
  · simp [get_wf_from_input_template, normalizeUserSettings_dict]
  · intro h
    simp [templateLoopBody, Firework.dataFilename?,
      Dict.get?_eq_none_of_contains_eq_false s "data_file" h]
  · intro v hv
    simp [templateLoopBody, Firework.dataFilename?, hv]
  · intro h
    refine ⟨?_, rfl, ?_⟩
    · simp [templateLoopBody, defaultLogFile_of_not_contains s h]
    · simp [templateLoopBody, Firework.logFilename?, defaultLogFile_get_log,
        Dict.get?_eq_none_of_contains_eq_false s "log_file" h]
  · intro v hv
    have hc : s.contains "log_file" = true := by simp [Dict.contains, hv]
    constructor
    · simp [templateLoopBody, defaultLogFile_of_contains s hc]
    · simp [templateLoopBody, Firework.logFilename?, defaultLogFile_of_contains s hc, hv]

/-- C7 witness: an empty configuration gets the defaulted data filename and is
mutated to carry the default log filename; a configuration carrying both keys
keeps its own values. -/
theorem c7_per_config_defaulting_witness :
    (templateLoopBody "wf" "in.template" Option.none "lammps.in" false "lammps"
        Option.none Option.none []).1.dataFilename?
      = some (PyVal.str "lammps.data") ∧
    (templateLoopBody "wf" "in.template" Option.none "lammps.in" false "lammps"
        Option.none Option.none []).2
      = Dict.set [] "log_file" (.str "log.lammps") ∧
    (templateLoopBody "wf" "in.template" Option.none "lammps.in" false "lammps"
        Option.none Option.none [("log_file", PyVal.str "mylog")]).2
      = [("log_file", PyVal.str "mylog")] :=
  ⟨(c7_per_config_defaulting "wf" "in.template" Option.none "lammps.in" false
      "lammps" Option.none Option.none []).2.1 rfl,
   ((c7_per_config_defaulting "wf" "in.template" Option.none "lammps.in" false
      "lammps" Option.none Option.none []).2.2.2.1 rfl).1,
   ((c7_per_config_defaulting "wf" "in.template" Option.none "lammps.in" false
      "lammps" Option.none Option.none [("log_file", PyVal.str "mylog")]).2.2.2.2
      (PyVal.str "mylog") rfl).1⟩

/-- C8: the only modification `get_wf_from_input_template` makes to a
caller-supplied configuration mapping is adding the "log_file" key when absent:
the post-call state of the mappings is exactly their image under the log-file
defaulting step, that step is the identity on a mapping already containing
"log_file", it preserves the binding of every other key, and on a mapping
lacking "log_file" it adds that key with value "log.lammps". -/
theorem c8_mutation_frame (tf : String) (l : List Dict) (ld : Option PyVal)
    (ifn : String) (isf : Bool) (cmd : String) (dfn : Option (List String))
    (db : Option String) (nm : String) :
    (get_wf_from_input_template tf (.list l) ld ifn isf cmd dfn db nm).2
        = (normalizeUserSettings (.list l)).map defaultLogFile ∧
    ∀ s : Dict,
      (s.contains "log_file" = true → defaultLogFile s = s) ∧
      (∀ k, k ≠ "log_file" → (defaultLogFile s).get? k = s.get? k) ∧
      (s.contains "log_file" = false →
        (defaultLogFile s).get? "log_file" = some (.str "log.lammps")) := by
  constructor
  · simp only [get_wf_from_input_template, List.map_map]
    exact List.map_congr_left (fun a ha => rfl)
  · intro s
    refine ⟨fun h => defaultLogFile_of_contains s h, fun k hk => ?_, fun h => ?_⟩
    · unfold defaultLogFile
      by_cases hc : s.contains "log_file"
      · simp [hc]
      · simp [hc, Dict.get?_set_ne s "log_file" k (.str "log.lammps") hk]
    · rw [defaultLogFile_of_not_contains s h, Dict.get?_set_self]

/-- C8 witness: a mapping with "log_file" is untouched; on one without it, the
other keys keep their bindings and "log_file" is added with the default. -/
theorem c8_mutation_frame_witness :
    defaultLogFile [("log_file", PyVal.str "mylog")]
      = [("log_file", PyVal.str "mylog")] ∧
    Dict.get? (defaultLogFile [("a", PyVal.int 1)]) "a" = some (PyVal.int 1) ∧
    Dict.get? (defaultLogFile [("a", PyVal.int 1)]) "log_file"
      = some (PyVal.str "log.lammps") :=
  ⟨((c8_mutation_frame "t" [] Option.none "i" false "c" Option.none Option.none
      "n").2 [("log_file", PyVal.str "mylog")]).1 rfl,
   ((c8_mutation_frame "t" [] Option.none "i" false "c" Option.none Option.none
      "n").2 [("a", PyVal.int 1)]).2.1 "a" (by decide),
   ((c8_mutation_frame "t" [] Option.none "i" false "c" Option.none Option.none
      "n").2 [("a", PyVal.int 1)]).2.2 rfl⟩

/-- C2: the claim says `get_packmol_wf` returns a two-node linear chain; on the
code, a concrete well-formed call instead aborts with the undefined-name error
for `forcefield` and returns no graph at all — the two-node chain is the
evident intent, defeated by the naming slip at line 81. -/
theorem c2_packmol_wf_failing_input :
    get_packmol_wf "lammps.in" [("temp", PyVal.int 300)] [PyVal.str "water"]
        [[("number", PyVal.int 1)]] (PyVal.str "ff") (PyVal.int 10) Option.none
        (PyVal.int 2) "xyz" Option.none "lammps" Option.none Option.none
        "LAMMPS packmol Wflow"
      = Except.error (.nameError "forcefield") :=
  rfl

/-- C3: `get_packmol_wf` reads the identifier `forcefield`, which differs from
its declared parameter `force_field` and is bound nowhere; hence no invocation
ever returns a workflow, and every invocation on which the per-molecule count
extraction succeeds fails with the undefined-name error for `forcefield` while
building the force-field simulation node. -/
theorem c3_unbound_forcefield_name (i : String) (us : Dict) (ms : List PyVal)
    (pc : List Dict) (ff bs : PyVal) (sp : Option PyVal) (tol : PyVal)
    (ft : String) (cp : Option PyVal) (cmd : String)
    (dfn : Option (List String)) (db : Option String) (nm : String) :
    (∀ w : Workflow,
      get_packmol_wf i us ms pc ff bs sp tol ft cp cmd dfn db nm
        ≠ Except.ok w) ∧
    (∀ ns, molsNumber pc = Except.ok ns →
      get_packmol_wf i us ms pc ff bs sp tol ft cp cmd dfn db nm
        = Except.error (.nameError "forcefield")) := by
  constructor
  · intro w hw
    cases h : molsNumber pc with
    | error e => simp [get_packmol_wf, h] at hw
    | ok ns => simp [get_packmol_wf, h] at hw
  · intro ns hns
    simp [get_packmol_wf, hns]

/-- C3 witness: a concrete call with a valid packing configuration fails with
the undefined-name error. -/
theorem c3_unbound_forcefield_name_witness :
    get_packmol_wf "in.lammps" [] [PyVal.str "ethanol"]
        [[("number", PyVal.int 3)], [("number", PyVal.int 10)]]
        (PyVal.str "opls") (PyVal.int 40) Option.none (PyVal.int 2) "pdb"
        Option.none "lmp" Option.none Option.none "nm"
      = Except.error (.nameError "forcefield") :=
  (c3_unbound_forcefield_name "in.lammps" [] [PyVal.str "ethanol"]
      [[("number", PyVal.int 3)], [("number", PyVal.int 10)]] (PyVal.str "opls")
      (PyVal.int 40) Option.none (PyVal.int 2) "pdb" Option.none "lmp"
      Option.none Option.none "nm").2 [PyVal.int 3, PyVal.int 10] rfl

/-- C9 counterexample: the force-field simulation node described at the
`LammpsForceFieldFW` call site of `get_packmol_wf` carries the log filename
"lammps.log", not the defaulted literal "log.lammps". -/
theorem c9_log_filename_counterexample :
    Firework.logFilename? (get_packmol_wf_fw_lammps "in.lammps" "packed.xyz"
        [] [] (PyVal.str "ff") [] Option.none "lammps" Option.none
        (Firework.packmol [] [] (PyVal.int 2) "xyz" Option.none true
          "packed.xyz" Option.none) Option.none)
      ≠ some (PyVal.str "log.lammps") := by
  decide

/-- C9 amended: the log filename literal that `get_packmol_wf` supplies in its
force-field simulation factory call is "lammps.log" (not the "log.lammps"
default used by the template workflow); moreover every call of
`get_packmol_wf` aborts with an error before the factory call, so no log
filename ever actually reaches the factory. -/
theorem c9_log_filename_is_lammps_log (i p : String) (ms ns : List PyVal)
    (ff : PyVal) (us : Dict) (sp : Option PyVal) (cmd : String)
    (db : Option String) (fwp : Firework) (dfn : Option (List String))
    (i2 : String) (us2 : Dict) (ms2 : List PyVal) (pc : List Dict)
    (ff2 bs : PyVal) (sp2 : Option PyVal) (tol : PyVal) (ft : String)
    (cp : Option PyVal) (cmd2 : String) (dfn2 : Option (List String))
    (db2 : Option String) (nm : String) :
    Firework.logFilename? (get_packmol_wf_fw_lammps i p ms ns ff us sp cmd db fwp dfn)
      = some (PyVal.str "lammps.log") ∧
    ∃ e, get_packmol_wf i2 us2 ms2 pc ff2 bs sp2 tol ft cp cmd2 dfn2 db2 nm
      = Except.error e := by
  refine ⟨rfl, ?_⟩
  cases h : molsNumber pc with
  | error e => exact ⟨e, by simp [get_packmol_wf, h]⟩
  | ok ns3 => exact ⟨.nameError "forcefield", by simp [get_packmol_wf, h]⟩

/-- C10: whenever the per-molecule count extraction of `get_packmol_wf`
succeeds, the derived count sequence has the same length as the packing
configuration and its i-th element is exactly the "number" field of the i-th
packing entry — order and length are preserved. -/
theorem c10_mols_number_order (pc : List Dict) (ns : List PyVal)
    (h : molsNumber pc = Except.ok ns) :
    ns.length = pc.length ∧
    ∀ i (h1 : i < pc.length) (h2 : i < ns.length),
      Dict.get? (pc.get ⟨i, h1⟩) "number" = some (ns.get ⟨i, h2⟩) := by
  induction pc generalizing ns with
  | nil =>
    unfold molsNumber at h
    injection h with hh
    subst hh
    exact ⟨rfl, fun i h1 h2 => absurd h1 (Nat.not_lt_zero i)⟩
  | cons d rest ih =>
    unfold molsNumber at h
    cases hg : Dict.get? d "number" with
    | none => rw [hg] at h; cases h
    | some v =>
      rw [hg] at h
      cases hr : molsNumber rest with
      | error e => rw [hr] at h; cases h
      | ok ms =>
        rw [hr] at h
        injection h with hh
        subst hh
        obtain ⟨hl, hidx⟩ := ih ms hr
        refine ⟨by simp [hl], ?_⟩
        intro i h1 h2
        cases i with
        | zero => exact hg
        | succ j =>
          exact hidx j (Nat.lt_of_succ_lt_succ h1) (Nat.lt_of_succ_lt_succ h2)

/-- C10 witness: the packing configuration of the claim's example,
[{"number": 3}, {"number": 10}], yields the count sequence [3, 10] of length
two. -/
theorem c10_mols_number_order_witness :
    molsNumber [[("number", PyVal.int 3)], [("number", PyVal.int 10)]]
      = Except.ok [PyVal.int 3, PyVal.int 10] ∧
    ([PyVal.int 3, PyVal.int 10] : List PyVal).length = 2 :=
  ⟨rfl,
   (c10_mols_number_order [[("number", PyVal.int 3)], [("number", PyVal.int 10)]]
     [PyVal.int 3, PyVal.int 10] rfl).1⟩

end AtomateLammps
